import Mathlib

/-!
Verification of the policy-validation engine in `scripts/validate_policy.py`
(`RegoWASMValidator.validate_input`, `RegoWASMValidator._check_rules`,
`RegoWASMValidator._valid_ticket`).

The shallow embedding below translates the evaluator into Lean:
JSON documents become typed records with `Option` fields (a `none` field is an
absent key, matching the spec's §3 data model under which all fields are
well-typed), Python truthiness of an optional boolean becomes `truthy`,
numeric fields become `Int`, and the policy store becomes an association list
keyed by environment name.  The Python `re` module is external library code;
its documented behaviour that the evaluator relies on (`re.match` matches an
anchored prefix at position 0 and raises `re.error` on a malformed pattern)
is modelled by a small executable regex engine over the fragment of patterns
relevant here (literals, escapes, `.`, anchors and single-atom quantifiers);
unsupported constructs are treated as compile errors of the model.
-/

namespace Rego

/-! ## Model of the Python `re` library (external dependency of `_valid_ticket`) -/

/-- One atomic pattern element: a literal character, `.` (any character except
newline), or one of the character classes `\d`, `\w`, `\s`. -/
inductive Atom where
  | lit (c : Char)
  | anyChar
  | digit
  | word
  | space
deriving Repr, DecidableEq

/-- A quantifier attached to an atom: exactly one occurrence, `*`, `+` or `?`. -/
inductive Quant where
  | one
  | star
  | plus
  | opt
deriving Repr, DecidableEq

/-- One term of a compiled pattern: the anchors `^` and `$`, or a quantified atom. -/
inductive Term where
  | assertStart
  | assertEnd
  | atom (a : Atom) (q : Quant)
deriving Repr, DecidableEq

/-- Does one character satisfy an atom?  (`.` excludes newline, `\d` is a digit,
`\w` a word character, `\s` whitespace, as documented for `re`.) -/
def matchAtom : Atom → Char → Bool
  | Atom.lit c, d => c == d
  | Atom.anyChar, d => d != '\n'
  | Atom.digit, d => d.isDigit
  | Atom.word, d => d.isAlphanum || d == '_'
  | Atom.space, d => d.isWhitespace

/-- Length of the maximal run of characters at the head of `s` satisfying `f`. -/
def runLen (f : Char → Bool) (s : List Char) : Nat :=
  (s.takeWhile f).length

/-- The candidate repetition counts a quantifier allows, given that the current
position has a maximal run of `r` characters satisfying the atom. -/
def quantRange (q : Quant) (r : Nat) : List Nat :=
  match q with
  | Quant.one => if 1 ≤ r then [1] else []
  | Quant.opt => if 1 ≤ r then [0, 1] else [0]
  | Quant.star => List.range (r + 1)
  | Quant.plus => (List.range r).map (fun j => j + 1)

/-- Anchored-prefix matching, the boolean semantics of `re.match`: does the term
list match some prefix of `s`?  `atStart` records whether the current position
is position 0 of the subject (for `^`); `$` asserts the end of the whole
subject, hence checks that the entire remainder is empty. -/
def matchSeq : List Term → Bool → List Char → Bool
  | [], _, _ => true
  | Term.assertStart :: ts, atStart, s => atStart && matchSeq ts atStart s
  | Term.assertEnd :: ts, atStart, s => s.isEmpty && matchSeq ts atStart s
  | Term.atom a q :: ts, atStart, s =>
      (quantRange q (runLen (matchAtom a) s)).any
        (fun k => matchSeq ts (atStart && k == 0) (s.drop k))

/-- Exact matching of a term list against a complete candidate string `s`, in a
subject context: `atEnd` records whether the subject ends right after `s`
(needed to interpret `$`).  Used only to state what `matchSeq` computes. -/
def matchExact : List Term → Bool → List Char → Bool → Bool
  | [], _, s, _ => s.isEmpty
  | Term.assertStart :: ts, atStart, s, atEnd => atStart && matchExact ts atStart s atEnd
  | Term.assertEnd :: ts, atStart, s, atEnd =>
      (s.isEmpty && atEnd) && matchExact ts atStart s atEnd
  | Term.atom a q :: ts, atStart, s, atEnd =>
      (quantRange q (runLen (matchAtom a) s)).any
        (fun k => matchExact ts (atStart && k == 0) (s.drop k) atEnd)

/-- Intermediate token of pattern compilation. -/
inductive Tok where
  | start
  | stop
  | atom (a : Atom)
  | quant (q : Quant)
deriving Repr, DecidableEq

/-- The atom denoted by an escape sequence `\c`, or `none` when the escape is
invalid (`re.error "bad escape"`): `\d`, `\w`, `\s` are classes, an escaped
non-alphanumeric character is that literal character, and any other escaped
letter or digit is rejected. -/
def escAtom (c : Char) : Option Atom :=
  if c = 'd' then some Atom.digit
  else if c = 'w' then some Atom.word
  else if c = 's' then some Atom.space
  else if c.isAlphanum then none
  else some (Atom.lit c)

/-- Characters opening regex constructs outside the modelled fragment
(groups, classes, counted repetitions — codes 123 and 125 are the two brace
characters — and alternation); the model reports them as compile errors. -/
def unsupportedChar (c : Char) : Bool :=
  c == '(' || c == ')' || c == '[' || c == ']' || c == '|' ||
  c.toNat == 123 || c.toNat == 125

/-- First compilation phase: characters to tokens.  Fails on a trailing
backslash, a bad escape, or an unsupported construct. -/
def tokenize : List Char → Except String (List Tok)
  | [] => Except.ok []
  | '^' :: r => (tokenize r).map (fun ts => Tok.start :: ts)
  | '$' :: r => (tokenize r).map (fun ts => Tok.stop :: ts)
  | '*' :: r => (tokenize r).map (fun ts => Tok.quant Quant.star :: ts)
  | '+' :: r => (tokenize r).map (fun ts => Tok.quant Quant.plus :: ts)
  | '?' :: r => (tokenize r).map (fun ts => Tok.quant Quant.opt :: ts)
  | '\\' :: [] => Except.error "bad escape (end of pattern)"
  | '\\' :: c :: r =>
      match escAtom c with
      | some a => (tokenize r).map (fun ts => Tok.atom a :: ts)
      | none => Except.error "bad escape"
  | c :: r =>
      if unsupportedChar c then Except.error "unsupported construct"
      else if c == '.' then (tokenize r).map (fun ts => Tok.atom Atom.anyChar :: ts)
      else (tokenize r).map (fun ts => Tok.atom (Atom.lit c) :: ts)

/-- Second compilation phase: attach quantifiers to the preceding atom.  A
quantifier with no preceding atom (also after an anchor, or doubled) is the
`re.error "nothing to repeat"` / `"multiple repeat"` case. -/
def groupToks : List Tok → Except String (List Term)
  | [] => Except.ok []
  | Tok.start :: ts => (groupToks ts).map (fun r => Term.assertStart :: r)
  | Tok.stop :: ts => (groupToks ts).map (fun r => Term.assertEnd :: r)
  | Tok.atom a :: Tok.quant q :: ts => (groupToks ts).map (fun r => Term.atom a q :: r)
  | Tok.atom a :: ts => (groupToks ts).map (fun r => Term.atom a Quant.one :: r)
  | Tok.quant _ :: _ => Except.error "nothing to repeat"

/-- Model of `re.compile`: parse a pattern, `Except.error` on malformed input. -/
def reCompile (pattern : String) : Except String (List Term) :=
  match tokenize pattern.data with
  | Except.ok toks => groupToks toks
  | Except.error e => Except.error e

/-- Model of `bool(re.match(pattern, s))`: compile, then test whether the
pattern matches a prefix of `s` anchored at position 0; a compile failure is
the raised `re.error`. -/
def reMatch (pattern s : String) : Except String Bool :=
  match reCompile pattern with
  | Except.ok ts => Except.ok (matchSeq ts true s.data)
  | Except.error e => Except.error e

/-! ## The evaluator (`validate_policy.py`) -/

/-- `RegoWASMValidator._valid_ticket` (lines 183–203): empty ticket id is
invalid; empty pattern accepts any non-empty id; otherwise `re.match`, with
`re.error` caught and turned into `False`. -/
def valid_ticket (ticket_id : String) (pattern : String) : Bool :=
  if ticket_id = "" then false
  else if pattern = "" then true
  else
    match reMatch pattern ticket_id with
    | Except.ok b => b
    | Except.error _ => false

/-- The `"checks"` sub-object of an input document (only `"tests"` is read). -/
structure InputChecks where
  tests : Option Bool := none
deriving Repr, DecidableEq

/-- An input event document.  Every field is optional, as in the JSON source;
`none` is an absent key. -/
structure InputEvent where
  env : Option String := none
  checks : Option InputChecks := none
  artifact_signed : Option Bool := none
  release_controlled : Option Bool := none
  approvers : Option (List String) := none
  shared_infra : Option Bool := none
  change_recorded : Option Bool := none
  ticket_id : Option String := none
  deployment_date_agreed : Option Bool := none
  wait_elapsed_seconds : Option Int := none
  is_emergency : Option Bool := none
  signed_off : Option Bool := none
  components_changed_after_signoff : Option Bool := none
  rollback_instructions_present : Option Bool := none
  deployments_today : Option Int := none
deriving Repr, DecidableEq

/-- A rule-parameter set (the `rules` object of one environment).  Every
parameter is optional. -/
structure EnvRules where
  tests_passed : Option Bool := none
  artifact_signed : Option Bool := none
  release_controlled : Option Bool := none
  require_reviewers : Option Bool := none
  min_reviewers : Option Int := none
  shared_infra_except_core : Option Bool := none
  change_recorded : Option Bool := none
  require_ticket : Option Bool := none
  ticket_pattern : Option String := none
  deployment_date_agreed : Option Bool := none
  wait_timer_seconds : Option Int := none
  signed_off : Option Bool := none
  retrospective_signoff : Option Bool := none
  components_unchanged : Option Bool := none
  rollback_instructions_present : Option Bool := none
  max_deployments_per_day : Option Int := none
deriving Repr, DecidableEq

/-- The validator's loaded data: `data["policy"]["environments"]`, an
environment-name-keyed mapping; each environment maps to its `"rules"` object
(the one-field `{"rules": ...}` wrapper of the JSON is flattened here). -/
structure PolicyData where
  environments : List (String × EnvRules) := []
deriving Repr, DecidableEq

/-- Python truthiness of an optional (well-typed) boolean field: an absent key
and `False` are falsy, `True` is truthy. -/
def truthy (o : Option Bool) : Bool :=
  o.getD false

/-- `RegoWASMValidator._check_rules` (lines 100–181): the fourteen checks, in
source order, each appending its violation message independently of the
others.  Message interpolation follows the Python f-strings. -/
def check_rules (input_data : InputEvent) (rules : EnvRules) : List String :=
  (if truthy rules.tests_passed && !truthy (input_data.checks.getD {}).tests then
      ["Rule#1: tests required but not passed"] else []) ++
  (if truthy rules.artifact_signed && !truthy input_data.artifact_signed then
      ["Rule#1: artifact must be signed"] else []) ++
  (if truthy rules.release_controlled && !truthy input_data.release_controlled then
      ["Rule#1: release must be controlled"] else []) ++
  (if truthy rules.require_reviewers then
      (let min_reviewers := rules.min_reviewers.getD 0
       let approvers := (input_data.approvers.getD []).length
       if (approvers : Int) < min_reviewers then
         ["Rule#1: at least " ++ toString min_reviewers ++
          " approvers required (got " ++ toString approvers ++ ")"]
       else [])
    else []) ++
  (if (rules.shared_infra_except_core == some false) &&
      (input_data.shared_infra == some true) then
      ["Rule#2: production cannot run on shared infra (except core)"] else []) ++
  (if truthy rules.change_recorded && !truthy input_data.change_recorded then
      ["Rule#3: change must be recorded"] else []) ++
  (if truthy rules.require_ticket then
      (let ticket_id := input_data.ticket_id.getD ""
       let ticket_pattern := rules.ticket_pattern.getD ""
       if !valid_ticket ticket_id ticket_pattern then
         ["Rule#3: ticket id invalid/missing (pattern " ++ ticket_pattern ++ ")"]
       else [])
    else []) ++
  (if truthy rules.deployment_date_agreed && !truthy input_data.deployment_date_agreed then
      ["Rule#4: deployment date not agreed"] else []) ++
  (let wait_timer := rules.wait_timer_seconds.getD 0
   if wait_timer > 0 then
     (let elapsed := input_data.wait_elapsed_seconds.getD 0
      if elapsed < wait_timer then
        ["Rule#4: wait timer not elapsed (" ++ toString elapsed ++ " < " ++
         toString wait_timer ++ ")"]
      else [])
   else []) ++
  (if truthy rules.signed_off && !truthy input_data.is_emergency &&
      !truthy input_data.signed_off then
      ["Rule#5: missing required sign-off"] else []) ++
  (if truthy input_data.is_emergency && (rules.retrospective_signoff == some false) then
      ["Rule#5: emergency path requires retrospective_signoff enabled"] else []) ++
  (if truthy rules.components_unchanged &&
      truthy input_data.components_changed_after_signoff then
      ["Rule#6: components changed after signoff; require new signoff"] else []) ++
  (if truthy rules.rollback_instructions_present &&
      !truthy input_data.rollback_instructions_present then
      ["Rule#7: rollback instructions must be present"] else []) ++
  (let max_deployments := rules.max_deployments_per_day.getD 0
   if max_deployments > 0 then
     (let deployments_today := input_data.deployments_today.getD 0
      if deployments_today > max_deployments then
        ["Max deployments per day exceeded (" ++ toString deployments_today ++
         " > " ++ toString max_deployments ++ ")"]
      else [])
   else [])

/-- The result document of a validation: `allowed`, the ordered violations,
and the `error` marker set only by the exception handler.  (The source also
echoes the input and a constant timestamp; neither affects any property
considered here.) -/
structure ValidationResult where
  allowed : Bool
  violations : List String
  error : Bool
deriving Repr, DecidableEq

/-- `RegoWASMValidator.validate_input` (lines 60–98), normal path: the declared
environment (absent key defaults to the empty string) is resolved in the
policy mapping; on a hit the rules are evaluated and `allowed` is set to
`len(violations) == 0`; on a miss the result keeps `allowed = False` with the
single unknown-environment violation. -/
def validate_input (data : PolicyData) (input_data : InputEvent) : ValidationResult :=
  let env := input_data.env.getD ""
  match data.environments.lookup env with
  | some rules =>
      let violations := check_rules input_data rules
      { allowed := violations.length == 0, violations := violations, error := false }
  | none =>
      { allowed := false, violations := ["Unknown environment: " ++ env], error := false }

/-- The `except Exception` handler of `validate_input` (lines 92–98): any
exception `e` escaping the body is converted into a denied result carrying the
single violation `"Validation error: {e}"` and the `error` marker. -/
def validate_input_onError (e : String) : ValidationResult :=
  { allowed := false, violations := ["Validation error: " ++ e], error := true }

/-- Exception-explicit variant of `check_rules`: the one primitive that can
raise inside the evaluator is `re.match` (modelled by `reMatch`), and the
source catches it inside `_valid_ticket`; every other step is pure.  This
definition makes that exception path visible in the `Except` monad so that
its absence from the result can be stated. -/
def check_rules_E (input_data : InputEvent) (rules : EnvRules) :
    Except String (List String) := do
  let seg7 ←
    if truthy rules.require_ticket then do
      let ticket_id := input_data.ticket_id.getD ""
      let ticket_pattern := rules.ticket_pattern.getD ""
      let valid ←
        if ticket_id = "" then pure false
        else if ticket_pattern = "" then pure true
        else
          match reMatch ticket_pattern ticket_id with
          | Except.ok b => pure b
          | Except.error _ => pure false
      if !valid then
        pure ["Rule#3: ticket id invalid/missing (pattern " ++ ticket_pattern ++ ")"]
      else pure []
    else pure []
  pure
    ((if truthy rules.tests_passed && !truthy (input_data.checks.getD {}).tests then
        ["Rule#1: tests required but not passed"] else []) ++
     (if truthy rules.artifact_signed && !truthy input_data.artifact_signed then
        ["Rule#1: artifact must be signed"] else []) ++
     (if truthy rules.release_controlled && !truthy input_data.release_controlled then
        ["Rule#1: release must be controlled"] else []) ++
     (if truthy rules.require_reviewers then
        (let min_reviewers := rules.min_reviewers.getD 0
         let approvers := (input_data.approvers.getD []).length
         if (approvers : Int) < min_reviewers then
           ["Rule#1: at least " ++ toString min_reviewers ++
            " approvers required (got " ++ toString approvers ++ ")"]
         else [])
      else []) ++
     (if (rules.shared_infra_except_core == some false) &&
         (input_data.shared_infra == some true) then
        ["Rule#2: production cannot run on shared infra (except core)"] else []) ++
     (if truthy rules.change_recorded && !truthy input_data.change_recorded then
        ["Rule#3: change must be recorded"] else []) ++
     seg7 ++
     (if truthy rules.deployment_date_agreed && !truthy input_data.deployment_date_agreed then
        ["Rule#4: deployment date not agreed"] else []) ++
     (let wait_timer := rules.wait_timer_seconds.getD 0
      if wait_timer > 0 then
        (let elapsed := input_data.wait_elapsed_seconds.getD 0
         if elapsed < wait_timer then
           ["Rule#4: wait timer not elapsed (" ++ toString elapsed ++ " < " ++
            toString wait_timer ++ ")"]
         else [])
      else []) ++
     (if truthy rules.signed_off && !truthy input_data.is_emergency &&
         !truthy input_data.signed_off then
        ["Rule#5: missing required sign-off"] else []) ++
     (if truthy input_data.is_emergency && (rules.retrospective_signoff == some false) then
        ["Rule#5: emergency path requires retrospective_signoff enabled"] else []) ++
     (if truthy rules.components_unchanged &&
         truthy input_data.components_changed_after_signoff then
        ["Rule#6: components changed after signoff; require new signoff"] else []) ++
     (if truthy rules.rollback_instructions_present &&
         !truthy input_data.rollback_instructions_present then
        ["Rule#7: rollback instructions must be present"] else []) ++
     (let max_deployments := rules.max_deployments_per_day.getD 0
      if max_deployments > 0 then
        (let deployments_today := input_data.deployments_today.getD 0
         if deployments_today > max_deployments then
           ["Max deployments per day exceeded (" ++ toString deployments_today ++
            " > " ++ toString max_deployments ++ ")"]
         else [])
      else []))

/-- Spec-side definition, transcribed from §4.2 of the specification: the fixed
ordered list of the fourteen checks, each as a (triggered, message) pair.  The
evaluator is claimed to return exactly the messages of the triggered pairs, in
this order. -/
def specCheckList (rules : EnvRules) (input_data : InputEvent) : List (Bool × String) :=
  let min_reviewers := rules.min_reviewers.getD 0
  let approvers := (input_data.approvers.getD []).length
  let ticket_pattern := rules.ticket_pattern.getD ""
  let wait_timer := rules.wait_timer_seconds.getD 0
  let elapsed := input_data.wait_elapsed_seconds.getD 0
  let max_deployments := rules.max_deployments_per_day.getD 0
  let deployments_today := input_data.deployments_today.getD 0
  [(truthy rules.tests_passed && !truthy (input_data.checks.getD {}).tests,
    "Rule#1: tests required but not passed"),
   (truthy rules.artifact_signed && !truthy input_data.artifact_signed,
    "Rule#1: artifact must be signed"),
   (truthy rules.release_controlled && !truthy input_data.release_controlled,
    "Rule#1: release must be controlled"),
   (truthy rules.require_reviewers && ((approvers : Int) < min_reviewers),
    "Rule#1: at least " ++ toString min_reviewers ++
      " approvers required (got " ++ toString approvers ++ ")"),
   ((rules.shared_infra_except_core == some false) &&
      (input_data.shared_infra == some true),
    "Rule#2: production cannot run on shared infra (except core)"),
   (truthy rules.change_recorded && !truthy input_data.change_recorded,
    "Rule#3: change must be recorded"),
   (truthy rules.require_ticket &&
      !valid_ticket (input_data.ticket_id.getD "") ticket_pattern,
    "Rule#3: ticket id invalid/missing (pattern " ++ ticket_pattern ++ ")"),
   (truthy rules.deployment_date_agreed && !truthy input_data.deployment_date_agreed,
    "Rule#4: deployment date not agreed"),
   ((wait_timer > 0 : Bool) && (elapsed < wait_timer),
    "Rule#4: wait timer not elapsed (" ++ toString elapsed ++ " < " ++
      toString wait_timer ++ ")"),
   (truthy rules.signed_off && !truthy input_data.is_emergency &&
      !truthy input_data.signed_off,
    "Rule#5: missing required sign-off"),
   (truthy input_data.is_emergency && (rules.retrospective_signoff == some false),
    "Rule#5: emergency path requires retrospective_signoff enabled"),
   (truthy rules.components_unchanged &&
      truthy input_data.components_changed_after_signoff,
    "Rule#6: components changed after signoff; require new signoff"),
   (truthy rules.rollback_instructions_present &&
      !truthy input_data.rollback_instructions_present,
    "Rule#7: rollback instructions must be present"),
   ((max_deployments > 0 : Bool) && (deployments_today > max_deployments),
    "Max deployments per day exceeded (" ++ toString deployments_today ++
      " > " ++ toString max_deployments ++ ")")]

/-! ## Helper lemmas -/

/-- Two strings differing at some character position are distinct. -/
theorem string_ne_of_nth_vals (s t : String) (n : Nat) (c d : Char)
    (hs : s.data[n]? = some c) (ht : t.data[n]? = some d) (hcd : c ≠ d) : s ≠ t := by
  intro he
  rw [he] at hs
  exact hcd (Option.some.inj (hs.symm.trans ht))

/-- Indexing an append inside the left part. -/
theorem nth_append_left (l1 l2 : List Char) (n : Nat) (h : n < l1.length) :
    (l1 ++ l2)[n]? = l1[n]? := by
  rw [List.getElem?_append]
  simp [h]

/-- Character 5 of a reviewer-count violation message is the digit of `Rule#1`. -/
theorem nth5_app (m : Int) (a : Nat) :
    ("Rule#1: at least " ++ toString m ++ " approvers required (got " ++
      toString a ++ ")").data[5]? = some '1' := by
  simp only [String.data_append]
  rw [nth_append_left, nth_append_left, nth_append_left, nth_append_left]
  · decide
  all_goals
    simp only [List.length_append, List.length_cons, List.length_nil]
    omega

/-- Character 0 of a reviewer-count violation message. -/
theorem nth0_app (m : Int) (a : Nat) :
    ("Rule#1: at least " ++ toString m ++ " approvers required (got " ++
      toString a ++ ")").data[0]? = some 'R' := by
  simp only [String.data_append]
  rw [nth_append_left, nth_append_left, nth_append_left, nth_append_left]
  · decide
  all_goals
    simp only [List.length_append, List.length_cons, List.length_nil]
    omega

/-- Character 5 of a ticket violation message is the digit of `Rule#3`. -/
theorem nth5_ticket (p : String) :
    ("Rule#3: ticket id invalid/missing (pattern " ++ p ++ ")").data[5]? = some '3' := by
  simp only [String.data_append]
  rw [nth_append_left, nth_append_left]
  · decide
  all_goals
    simp only [List.length_append, List.length_cons, List.length_nil]
    omega

/-- Character 0 of a ticket violation message. -/
theorem nth0_ticket (p : String) :
    ("Rule#3: ticket id invalid/missing (pattern " ++ p ++ ")").data[0]? = some 'R' := by
  simp only [String.data_append]
  rw [nth_append_left, nth_append_left]
  · decide
  all_goals
    simp only [List.length_append, List.length_cons, List.length_nil]
    omega

/-- Character 5 of a wait-timer violation message is the digit of `Rule#4`. -/
theorem nth5_wait (e w : Int) :
    ("Rule#4: wait timer not elapsed (" ++ toString e ++ " < " ++
      toString w ++ ")").data[5]? = some '4' := by
  simp only [String.data_append]
  rw [nth_append_left, nth_append_left, nth_append_left, nth_append_left]
  · decide
  all_goals
    simp only [List.length_append, List.length_cons, List.length_nil]
    omega

/-- Character 0 of a wait-timer violation message. -/
theorem nth0_wait (e w : Int) :
    ("Rule#4: wait timer not elapsed (" ++ toString e ++ " < " ++
      toString w ++ ")").data[0]? = some 'R' := by
  simp only [String.data_append]
  rw [nth_append_left, nth_append_left, nth_append_left, nth_append_left]
  · decide
  all_goals
    simp only [List.length_append, List.length_cons, List.length_nil]
    omega

/-- Character 0 of a guardrail violation message. -/
theorem nth0_guard (d mx : Int) :
    ("Max deployments per day exceeded (" ++ toString d ++ " > " ++
      toString mx ++ ")").data[0]? = some 'M' := by
  simp only [String.data_append]
  rw [nth_append_left, nth_append_left, nth_append_left, nth_append_left]
  · decide
  all_goals
    simp only [List.length_append, List.length_cons, List.length_nil]
    omega

/-- A string whose character 5 is not `'1'` is not a reviewer-count message. -/
theorem ne_app_msg (t : String) (h : t.data[5]? ≠ some '1') (m : Int) (a : Nat) :
    t ≠ "Rule#1: at least " ++ toString m ++ " approvers required (got " ++
      toString a ++ ")" := by
  intro he
  exact h (by rw [he, nth5_app])

/-- A string whose character 5 is not `'3'` is not a ticket message. -/
theorem ne_ticket_msg (t : String) (h : t.data[5]? ≠ some '3') (p : String) :
    t ≠ "Rule#3: ticket id invalid/missing (pattern " ++ p ++ ")" := by
  intro he
  exact h (by rw [he, nth5_ticket])

/-- A string whose character 5 is not `'4'` is not a wait-timer message. -/
theorem ne_wait_msg (t : String) (h : t.data[5]? ≠ some '4') (e w : Int) :
    t ≠ "Rule#4: wait timer not elapsed (" ++ toString e ++ " < " ++
      toString w ++ ")" := by
  intro he
  exact h (by rw [he, nth5_wait])

/-- A string whose character 0 is not `'M'` is not a guardrail message. -/
theorem ne_guard_msg (t : String) (h : t.data[0]? ≠ some 'M') (d mx : Int) :
    t ≠ "Max deployments per day exceeded (" ++ toString d ++ " > " ++
      toString mx ++ ")" := by
  intro he
  exact h (by rw [he, nth0_guard])

/-- A guardrail message differs from any string starting elsewhere than `'M'`. -/
theorem guard_ne_t (t : String) (h : t.data[0]? ≠ some 'M') (d mx : Int) :
    ("Max deployments per day exceeded (" ++ toString d ++ " > " ++
      toString mx ++ ")") ≠ t := by
  intro he
  exact h (by rw [← he, nth0_guard])

/-- A guardrail message is never a reviewer-count message. -/
theorem guard_ne_app (d mx m : Int) (a : Nat) :
    ("Max deployments per day exceeded (" ++ toString d ++ " > " ++
      toString mx ++ ")") ≠
    ("Rule#1: at least " ++ toString m ++ " approvers required (got " ++
      toString a ++ ")") :=
  guard_ne_t _ (by rw [nth0_app]; decide) d mx

/-- A guardrail message is never a ticket message. -/
theorem guard_ne_ticket (d mx : Int) (p : String) :
    ("Max deployments per day exceeded (" ++ toString d ++ " > " ++
      toString mx ++ ")") ≠
    ("Rule#3: ticket id invalid/missing (pattern " ++ p ++ ")") :=
  guard_ne_t _ (by rw [nth0_ticket]; decide) d mx

/-- A guardrail message is never a wait-timer message. -/
theorem guard_ne_wait (d mx e w : Int) :
    ("Max deployments per day exceeded (" ++ toString d ++ " > " ++
      toString mx ++ ")") ≠
    ("Rule#4: wait timer not elapsed (" ++ toString e ++ " < " ++
      toString w ++ ")") :=
  guard_ne_t _ (by rw [nth0_wait]; decide) d mx

/-- Membership in a conditional singleton-or-empty segment. -/
theorem mem_ite_nil {α : Type} (x : α) (p : Prop) [Decidable p] (l : List α) :
    x ∈ (if p then l else []) ↔ p ∧ x ∈ l := by
  by_cases h : p
  · simp [h]
  · simp [h]

/-- Filtering a cons of a (flag, message) pair peels off a conditional segment. -/
theorem filter_fst_cons (b : Bool) (m : String) (l : List (Bool × String)) :
    (((b, m) :: l).filter Prod.fst).map Prod.snd =
      (if b then [m] else []) ++ (l.filter Prod.fst).map Prod.snd := by
  cases b <;> simp [List.filter_cons]

/-- A boolean-guarded inner conditional flattens to a conjunction. -/
theorem ite_nested_eq_and (b : Bool) (p : Prop) [Decidable p] (m : List String) :
    (if b then (if p then m else []) else []) = (if b && decide p then m else []) := by
  cases b <;> by_cases hp : p <;> simp [hp]

/-- A proposition-guarded inner conditional flattens to a conjunction. -/
theorem ite_nested_eq_and2 (p q : Prop) [Decidable p] [Decidable q] (m : List String) :
    (if p then (if q then m else []) else []) =
      (if decide p && decide q then m else []) := by
  by_cases hp : p <;> by_cases hq : q <;> simp [hp, hq]

/-- Two nested boolean conditionals flatten to a conjunction. -/
theorem ite_nested_eq_andb (b c : Bool) (m : List String) :
    (if b then (if c then m else []) else []) = (if b && c then m else []) := by
  cases b <;> cases c <;> simp

/-- The matching run at the head of a list is no longer than the list. -/
theorem runLen_le_length (f : Char → Bool) (s : List Char) : runLen f s ≤ s.length := by
  induction s with
  | nil => simp [runLen]
  | cons c s ih =>
      simp only [runLen, List.takeWhile_cons, List.length_cons]
      split
      · simp only [List.length_cons]
        exact Nat.succ_le_succ ih
      · simp

/-- Appending on the right can only extend the matching run. -/
theorem runLen_append_le (f : Char → Bool) (s1 s2 : List Char) :
    runLen f s1 ≤ runLen f (s1 ++ s2) := by
  induction s1 with
  | nil => simp [runLen]
  | cons c s ih =>
      simp only [runLen, List.cons_append, List.takeWhile_cons]
      split
      · simp only [List.length_cons]
        exact Nat.succ_le_succ ih
      · simp

/-- A prefix of the matching run still heads a matching run after appending. -/
theorem runLen_take_append (f : Char → Bool) (s : List Char) :
    ∀ (r : List Char) (k : Nat), k ≤ runLen f s → k ≤ runLen f (s.take k ++ r) := by
  induction s with
  | nil =>
      intro r k hk
      simp only [runLen, List.takeWhile_nil, List.length_nil, Nat.le_zero] at hk
      simp [hk]
  | cons c s ih =>
      intro r k hk
      match k with
      | 0 => simp
      | Nat.succ j =>
          simp only [runLen, List.takeWhile_cons] at hk
          cases hfc : f c with
          | false => rw [hfc] at hk; simp at hk
          | true =>
              rw [hfc] at hk
              simp only [if_true, List.length_cons, Nat.succ_le_succ_iff] at hk
              rw [List.take_succ_cons, List.cons_append]
              simp only [runLen, List.takeWhile_cons, hfc, if_true, List.length_cons]
              exact Nat.succ_le_succ (ih r j hk)

/-- Membership in the repetition-count candidates of a quantifier. -/
theorem mem_quantRange_iff (q : Quant) (r k : Nat) :
    k ∈ quantRange q r ↔
      (k ≤ r ∧ match q with
        | Quant.one => k = 1
        | Quant.opt => k ≤ 1
        | Quant.star => True
        | Quant.plus => 1 ≤ k) := by
  cases q
  · simp only [quantRange]
    by_cases h : 1 ≤ r <;> simp [h] <;> omega
  · simp only [quantRange, List.mem_range]
    constructor
    · intro h; exact ⟨by omega, trivial⟩
    · intro h; omega
  · simp only [quantRange, List.mem_map, List.mem_range]
    constructor
    · rintro ⟨j, hj, rfl⟩; exact ⟨by omega, by omega⟩
    · rintro ⟨h1, h2⟩; exact ⟨k - 1, by omega, by omega⟩
  · simp only [quantRange]
    by_cases h : 1 ≤ r <;> simp [h] <;> omega

/-- What `matchSeq` computes: the pattern matches anchored at position 0
against some prefix `s1` of the subject, with the rest `s2` discarded (and
only its emptiness visible, for `$`).  This characterises the anchored-prefix
semantics of `re.match`: no leading characters may be skipped (unlike
`re.search`) and trailing characters are ignored (unlike `re.fullmatch`). -/
theorem matchSeq_iff_pref (ts : List Term) : ∀ (b : Bool) (s : List Char),
    matchSeq ts b s = true ↔
      ∃ s1 s2, s = s1 ++ s2 ∧ matchExact ts b s1 s2.isEmpty = true := by
  induction ts with
  | nil =>
      intro b s
      simp only [matchSeq, matchExact]
      constructor
      · intro _
        exact ⟨[], s, rfl, rfl⟩
      · intro _
        trivial
  | cons t ts ih =>
      cases t with
      | assertStart =>
          intro b s
          simp only [matchSeq, matchExact, Bool.and_eq_true]
          constructor
          · rintro ⟨hb, hm⟩
            obtain ⟨s1, s2, rfl, he⟩ := (ih b _).mp hm
            exact ⟨s1, s2, rfl, hb, he⟩
          · rintro ⟨s1, s2, rfl, hb, he⟩
            exact ⟨hb, (ih b _).mpr ⟨s1, s2, rfl, he⟩⟩
      | assertEnd =>
          intro b s
          simp only [matchSeq, matchExact, Bool.and_eq_true]
          constructor
          · rintro ⟨hs, hm⟩
            have hnil : s = [] := List.isEmpty_iff.mp hs
            subst hnil
            obtain ⟨s1, s2, hsp, he⟩ := (ih b []).mp hm
            obtain ⟨rfl, rfl⟩ := List.append_eq_nil.mp hsp.symm
            exact ⟨[], [], rfl, ⟨rfl, rfl⟩, he⟩
          · rintro ⟨s1, s2, rfl, ⟨h1, h2⟩, he⟩
            obtain rfl := List.isEmpty_iff.mp h1
            obtain rfl := List.isEmpty_iff.mp h2
            exact ⟨rfl, (ih b []).mpr ⟨[], [], rfl, he⟩⟩
      | atom a q =>
          intro b s
          simp only [matchSeq, matchExact]
          rw [List.any_eq_true]
          constructor
          · rintro ⟨k, hkmem, hk⟩
            obtain ⟨r, t2, hsp, he⟩ := (ih _ _).mp hk
            obtain ⟨hkr, hOK⟩ := (mem_quantRange_iff q _ k).mp hkmem
            have hkl : k ≤ s.length := le_trans hkr (runLen_le_length _ _)
            refine ⟨s.take k ++ r, t2, ?_, ?_⟩
            · rw [List.append_assoc, ← hsp, List.take_append_drop]
            · rw [List.any_eq_true]
              refine ⟨k, ?_, ?_⟩
              · exact (mem_quantRange_iff q _ k).mpr
                  ⟨runLen_take_append (matchAtom a) s r k hkr, hOK⟩
              · have hlen : (s.take k).length = k := by
                  rw [List.length_take]; omega
                rw [List.drop_append_of_le_length (by omega),
                    List.drop_eq_nil_of_le (by omega), List.nil_append]
                exact he
          · rintro ⟨s1, s2, rfl, he⟩
            rw [List.any_eq_true] at he
            obtain ⟨k, hkmem, he⟩ := he
            obtain ⟨hkr1, hOK⟩ := (mem_quantRange_iff q _ k).mp hkmem
            have hk1l : k ≤ s1.length := le_trans hkr1 (runLen_le_length _ _)
            refine ⟨k, ?_, ?_⟩
            · exact (mem_quantRange_iff q _ k).mpr
                ⟨le_trans hkr1 (runLen_append_le _ _ _), hOK⟩
            · rw [List.drop_append_of_le_length hk1l]
              exact (ih _ _).mpr ⟨s1.drop k, s2, rfl, he⟩

/-! ## Claim theorems -/

/-- C1: for every policy document and input event, the result of
`validate_input` satisfies `allowed = violations.isEmpty`, in the resolved
branch, the unknown-environment branch, and the exception-handler branch. -/
theorem claim_C1_allowed_iff_no_violations :
    (∀ (data : PolicyData) (input_data : InputEvent),
        (validate_input data input_data).allowed =
          (validate_input data input_data).violations.isEmpty) ∧
    (∀ e : String,
        (validate_input_onError e).allowed =
          (validate_input_onError e).violations.isEmpty) := by
  constructor
  · intro data input_data
    simp only [validate_input]
    cases h : data.environments.lookup (input_data.env.getD "") with
    | some rules =>
        simp only [h]
        cases hv : check_rules input_data rules <;> simp
    | none => simp [h]
  · intro e
    simp [validate_input_onError]

/-- C2: when the declared environment name is not a key of the policy's
environment mapping, the result is denied with exactly the single violation
`"Unknown environment: {name}"`, independent of every rule parameter and of
every other input field (no rule check contributes). -/
theorem claim_C2_unknown_env (data : PolicyData) (input_data : InputEvent)
    (h : data.environments.lookup (input_data.env.getD "") = none) :
    validate_input data input_data =
      { allowed := false,
        violations := ["Unknown environment: " ++ input_data.env.getD ""],
        error := false } := by
  simp [validate_input, h]

/-- Witness for C2: a policy defining only `"prod"` and an input declaring
`"staging"` yields the denied single-violation result of the spec's example. -/
theorem claim_C2_unknown_env_witness :
    ({ environments := [("prod", {})] } : PolicyData).environments.lookup
        (({ env := some "staging" } : InputEvent).env.getD "") = none ∧
    validate_input { environments := [("prod", {})] } { env := some "staging" } =
      { allowed := false, violations := ["Unknown environment: staging"],
        error := false } := by
  refine ⟨by decide, ?_⟩
  exact (claim_C2_unknown_env { environments := [("prod", {})] }
    { env := some "staging" } (by decide)).trans (by decide)

/-- C10: an input lacking the `env` field is treated as naming the empty
environment; when the empty string is not a policy key the result is denied
with the single violation `"Unknown environment: "`. -/
theorem claim_C10_absent_env (data : PolicyData) (input_data : InputEvent)
    (henv : input_data.env = none) (h : data.environments.lookup "" = none) :
    validate_input data input_data =
      { allowed := false, violations := ["Unknown environment: "],
        error := false } := by
  have : input_data.env.getD "" = "" := by rw [henv]; rfl
  simp [validate_input, this, h]

/-- Witness for C10: an empty policy and an input without `env`. -/
theorem claim_C10_absent_env_witness :
    ({} : InputEvent).env = none ∧
    ({ environments := [] } : PolicyData).environments.lookup "" = none ∧
    validate_input { environments := [] } {} =
      { allowed := false, violations := ["Unknown environment: "],
        error := false } :=
  ⟨rfl, rfl, claim_C10_absent_env { environments := [] } {} rfl rfl⟩

/-- C8: with every rule parameter absent, the evaluator reports no violation
for any input (no rule denies by default; the numeric thresholds default to
0, meaning unlimited / no wait). -/
theorem claim_C8_empty_rules_allow (input_data : InputEvent) :
    check_rules input_data {} = [] := by
  simp [check_rules, truthy, beq_iff_eq]

/-- C5: for every rule set and input with a truthy `is_emergency`, the
missing-sign-off violation is never produced (emergency bypass, regardless of
`rules.signed_off` and `input.signed_off`), and the emergency-retrospective
violation is produced exactly when `retrospective_signoff` is present and
explicitly `false`. -/
theorem claim_C5_emergency_signoff (rules : EnvRules) (input_data : InputEvent)
    (hem : truthy input_data.is_emergency = true) :
    ("Rule#5: missing required sign-off" ∉ check_rules input_data rules) ∧
    (("Rule#5: emergency path requires retrospective_signoff enabled" ∈
        check_rules input_data rules) ↔
      rules.retrospective_signoff = some false) := by
  constructor
  · simp only [check_rules, List.mem_append, mem_ite_nil, List.mem_singleton]
    simp [hem,
      ne_app_msg "Rule#5: missing required sign-off" (by decide),
      ne_ticket_msg "Rule#5: missing required sign-off" (by decide),
      ne_wait_msg "Rule#5: missing required sign-off" (by decide),
      ne_guard_msg "Rule#5: missing required sign-off" (by decide)]
  · simp only [check_rules, List.mem_append, mem_ite_nil, List.mem_singleton]
    simp [hem,
      ne_app_msg "Rule#5: emergency path requires retrospective_signoff enabled"
        (by decide),
      ne_ticket_msg "Rule#5: emergency path requires retrospective_signoff enabled"
        (by decide),
      ne_wait_msg "Rule#5: emergency path requires retrospective_signoff enabled"
        (by decide),
      ne_guard_msg "Rule#5: emergency path requires retrospective_signoff enabled"
        (by decide)]

/-- Witness for C5: the spec's emergency-bypass example, rules
`{signed_off: true, retrospective_signoff: false}` with input
`{is_emergency: true, signed_off: false}`. -/
theorem claim_C5_emergency_signoff_witness :
    truthy ({ is_emergency := some true, signed_off := some false } :
        InputEvent).is_emergency = true ∧
    ("Rule#5: missing required sign-off" ∉
      check_rules { is_emergency := some true, signed_off := some false }
        { signed_off := some true, retrospective_signoff := some false }) ∧
    (("Rule#5: emergency path requires retrospective_signoff enabled" ∈
        check_rules { is_emergency := some true, signed_off := some false }
          { signed_off := some true, retrospective_signoff := some false }) ↔
      ({ signed_off := some true, retrospective_signoff := some false } :
          EnvRules).retrospective_signoff = some false) :=
  ⟨by decide,
   (claim_C5_emergency_signoff
      { signed_off := some true, retrospective_signoff := some false }
      { is_emergency := some true, signed_off := some false } (by decide)).1,
   (claim_C5_emergency_signoff
      { signed_off := some true, retrospective_signoff := some false }
      { is_emergency := some true, signed_off := some false } (by decide)).2⟩

/-- C6: the shared-infra violation is produced iff `shared_infra_except_core`
is present and explicitly `false` while `input.shared_infra` is `true`; with
the key absent (or `true`) it is never produced. -/
theorem claim_C6_shared_infra_iff (rules : EnvRules) (input_data : InputEvent) :
    ("Rule#2: production cannot run on shared infra (except core)" ∈
        check_rules input_data rules) ↔
      (rules.shared_infra_except_core = some false ∧
        input_data.shared_infra = some true) := by
  simp only [check_rules, List.mem_append, mem_ite_nil, List.mem_singleton]
  simp [ne_app_msg "Rule#2: production cannot run on shared infra (except core)"
          (by decide),
        ne_ticket_msg "Rule#2: production cannot run on shared infra (except core)"
          (by decide),
        ne_wait_msg "Rule#2: production cannot run on shared infra (except core)"
          (by decide),
        ne_guard_msg "Rule#2: production cannot run on shared infra (except core)"
          (by decide)]

/-- C7: the deployment-rate guardrail violation (with the actual counts
interpolated) is produced iff `max_deployments_per_day > 0` and
`deployments_today` strictly exceeds it; equality at the limit and a limit of
0 produce no violation. -/
theorem claim_C7_guardrail_iff (rules : EnvRules) (input_data : InputEvent) :
    (("Max deployments per day exceeded (" ++
        toString (input_data.deployments_today.getD 0) ++ " > " ++
        toString (rules.max_deployments_per_day.getD 0) ++ ")") ∈
        check_rules input_data rules) ↔
      (rules.max_deployments_per_day.getD 0 > 0 ∧
        input_data.deployments_today.getD 0 > rules.max_deployments_per_day.getD 0) := by
  simp only [check_rules, List.mem_append, mem_ite_nil, List.mem_singleton]
  simp [guard_ne_t "Rule#1: tests required but not passed" (by decide),
        guard_ne_t "Rule#1: artifact must be signed" (by decide),
        guard_ne_t "Rule#1: release must be controlled" (by decide),
        guard_ne_t "Rule#2: production cannot run on shared infra (except core)"
          (by decide),
        guard_ne_t "Rule#3: change must be recorded" (by decide),
        guard_ne_t "Rule#4: deployment date not agreed" (by decide),
        guard_ne_t "Rule#5: missing required sign-off" (by decide),
        guard_ne_t "Rule#5: emergency path requires retrospective_signoff enabled"
          (by decide),
        guard_ne_t "Rule#6: components changed after signoff; require new signoff"
          (by decide),
        guard_ne_t "Rule#7: rollback instructions must be present" (by decide),
        guard_ne_app, guard_ne_ticket, guard_ne_wait]

/-- C3: the evaluator's output is exactly the messages of the triggered checks
among the fixed fourteen of §4.2, obtained by filtering the full ordered check
list — so every applicable check contributes even when earlier checks already
triggered (no short-circuiting), and the messages appear in the fixed order of
checks 1 through 14. -/
theorem claim_C3_ordered_checks (rules : EnvRules) (input_data : InputEvent) :
    check_rules input_data rules =
      ((specCheckList rules input_data).filter Prod.fst).map Prod.snd := by
  simp only [specCheckList]
  rw [filter_fst_cons, filter_fst_cons, filter_fst_cons, filter_fst_cons,
      filter_fst_cons, filter_fst_cons, filter_fst_cons, filter_fst_cons,
      filter_fst_cons, filter_fst_cons, filter_fst_cons, filter_fst_cons,
      filter_fst_cons, filter_fst_cons]
  simp only [List.filter_nil, List.map_nil, List.append_nil]
  simp only [check_rules, ite_nested_eq_and, ite_nested_eq_and2, ite_nested_eq_andb]
  simp only [List.append_assoc, Bool.decide_coe]

/-- C4: `_valid_ticket` rejects an empty (or absent, defaulted) ticket id
regardless of pattern; accepts any non-empty id when the pattern is empty or
absent; and otherwise accepts exactly when the compiled pattern matches a
prefix of the id anchored at position 0 (trailing characters allowed — not a
full-string match — and no skipped leading characters — not a search), while
a pattern that fails to compile yields `false` instead of an exception. -/
theorem claim_C4_ticket_anchored (ticket_id : String) (pattern : String) :
    valid_ticket ticket_id pattern = true ↔
      (ticket_id ≠ "" ∧ (pattern = "" ∨ ∃ ts, reCompile pattern = Except.ok ts ∧
        ∃ s1 s2, ticket_id.data = s1 ++ s2 ∧ matchExact ts true s1 s2.isEmpty = true)) := by
  unfold valid_ticket reMatch
  by_cases h1 : ticket_id = ""
  · simp [h1]
  by_cases h2 : pattern = ""
  · simp [h1, h2]
  cases hc : reCompile pattern with
  | ok ts => simp [h1, h2, hc, matchSeq_iff_pref]
  | error e => simp [h1, h2, hc]

/-- C9: under the well-typed data model, evaluation has no exception path:
the exception-explicit evaluator — in which the one raising primitive,
`re.match`, is visible in the `Except` monad and caught where the source
catches it — always returns `Except.ok` with exactly the violations of the
pure evaluator, for every input and rule set (including malformed ticket
patterns). -/
theorem claim_C9_no_exception_path (input_data : InputEvent) (rules : EnvRules) :
    check_rules_E input_data rules = Except.ok (check_rules input_data rules) := by
  unfold check_rules_E check_rules valid_ticket
  by_cases ht : truthy rules.require_ticket = true
  · simp only [ht, if_true]
    by_cases h1 : input_data.ticket_id.getD "" = ""
    · simp [h1, bind, Except.bind, pure, Except.pure]
    · by_cases h2 : rules.ticket_pattern.getD "" = ""
      · simp [h1, h2, bind, Except.bind, pure, Except.pure]
      · cases hc : reMatch (rules.ticket_pattern.getD "") (input_data.ticket_id.getD "") with
        | ok bv => cases bv <;> simp [h1, h2, hc, bind, Except.bind, pure, Except.pure]
        | error e => simp [h1, h2, hc, bind, Except.bind, pure, Except.pure]
  · simp [ht, bind, Except.bind, pure, Except.pure]

end Rego
